import Mathlib

/-!
Shallow embedding of the SecureCheck police-post digital ledger (src/app.py).
The record store (one SQLite table `police_stop_logs`) is modelled as a
`List StopRecord`; SQL aggregate reports are modelled as Lean functions over
that list; the Streamlit ingestion form's submit handler is modelled as the
function `ingest`.  Rationals (`ℚ`) stand for SQLite REAL arithmetic on the
exact integer counts involved, and SQL NULL is modelled with `Option`.
-/

/-- StopRecord models one row of the `police_stop_logs` table
(schema in `init_db`, src/app.py lines 29-46).  The auto-increment
primary key is omitted: no claim in scope refers to it.  `driver_age`
is `Option Int` because the INTEGER column is nullable; the three
boolean-as-integer columns keep their `Int` representation. -/
structure StopRecord where
  stop_datetime : String
  country_name : String
  vehicle_number : String
  driver_gender : String
  driver_age : Option Int
  driver_race : String
  violation : String
  stop_duration : String
  stop_outcome : String
  search_conducted : Int
  search_type : String
  is_arrested : Int
  drugs_related_stop : Int
deriving DecidableEq, Repr

/-- pyUpper models Python `str.upper()` (ASCII case mapping, which covers
every value these fields take). -/
def pyUpper (s : String) : String := ⟨s.data.map Char.toUpper⟩

/-- pyStrip models Python `str.strip()`: drop leading and trailing
whitespace. -/
def pyStrip (s : String) : String :=
  ⟨((s.data.dropWhile Char.isWhitespace).reverse.dropWhile Char.isWhitespace).reverse⟩

/-- normalizeVehicle models `st.text_input(...).upper().strip()`
(src/app.py line 409 and line 466). -/
def normalizeVehicle (raw : String) : String := pyStrip (pyUpper raw)

/-- age_group models the `CASE ... END AS age_group` expression used by the
demographic reports (src/app.py lines 114-122, 272-279, 318-326): the WHEN
arms are tried in order; a NULL `driver_age` makes every comparison NULL
(falsy in SQLite), so NULL falls to the ELSE arm. -/
def age_group : Option Int → String
  | none => "Unknown"
  | some a =>
    if a < 18 then "<18"
    else if 18 ≤ a ∧ a ≤ 24 then "18-24"
    else if 25 ≤ a ∧ a ≤ 34 then "25-34"
    else if 35 ≤ a ∧ a ≤ 44 then "35-44"
    else if 45 ≤ a ∧ a ≤ 54 then "45-54"
    else if 55 ≤ a then "55+"
    else "Unknown"

/-- sixAgeBands lists the six age bands of the spec. -/
def sixAgeBands : List String := ["<18", "18-24", "25-34", "35-44", "45-54", "55+"]

/-- inAgeBand decides the integer interval each band name denotes. -/
def inAgeBand (band : String) (a : Int) : Bool :=
  if band = "<18" then a < 18
  else if band = "18-24" then 18 ≤ a ∧ a ≤ 24
  else if band = "25-34" then 25 ≤ a ∧ a ≤ 34
  else if band = "35-44" then 35 ≤ a ∧ a ≤ 44
  else if band = "45-54" then 45 ≤ a ∧ a ≤ 54
  else if band = "55+" then 55 ≤ a
  else false

/-- Kpis models the result row of the KPI query (src/app.py lines 378-385):
`COUNT(*)` is never NULL, but the two `SUM(CASE ...)` aggregates are NULL
(here `none`) when the table is empty. -/
structure Kpis where
  total_stops : Nat
  total_arrests : Option Nat
  total_drug_stops : Option Nat

/-- load_kpis models the KPI query of src/app.py lines 378-385 over the
modelled store. -/
def load_kpis (db : List StopRecord) : Kpis :=
  { total_stops := db.length
  , total_arrests :=
      if db.isEmpty then none
      else some ((db.filter (fun r => decide (r.is_arrested = 1))).length)
  , total_drug_stops :=
      if db.isEmpty then none
      else some ((db.filter (fun r => decide (r.drugs_related_stop = 1))).length) }

/-- intOfSql models Python `int(x)` applied to a value read back from SQL:
it raises (here `Except.error`) on NULL/NaN and is the identity on integers. -/
def intOfSql : Option Nat → Except String Nat
  | none => .error "cannot convert NULL to integer"
  | some n => .ok n

/-- drug_rate models the conditional expression of src/app.py line 391:
`(int(kpis["total_drug_stops"]) / int(kpis["total_stops"]) * 100.0)
if kpis["total_stops"] > 0 else 0.0`.  The guarded branch, with its two
fallible `int` conversions and the division, is evaluated only when
`total_stops > 0`. -/
def drug_rate (k : Kpis) : Except String ℚ :=
  if 0 < k.total_stops then do
    let d ← intOfSql k.total_drug_stops
    pure ((d : ℚ) / (k.total_stops : ℚ) * 100)
  else pure 0

/-- Advisory models the prior-arrest advisory surfaced by the submit handler
(src/app.py lines 435-438): `st.warning` with the literal count when the
count is positive, `st.info` ("no prior arrests") otherwise. -/
inductive Advisory
  | noPrior
  | alert (count : Nat)
deriving DecidableEq, Repr

/-- StopDateTime models the `datetime.combine(stop_date, stop_time)` value
built from the form's date and time pickers (src/app.py line 431). -/
structure StopDateTime where
  year : Nat
  month : Nat
  day : Nat
  hour : Nat
  minute : Nat
  second : Nat
deriving DecidableEq, Repr

/-- pad2 models a zero-padded two-digit decimal field of `strftime`
(exact for values below 100, which covers every valid month, day, hour,
minute and second). -/
def pad2 (n : Nat) : List Char := [Nat.digitChar (n / 10), Nat.digitChar (n % 10)]

/-- pad4 models the four-digit `%Y` field of `strftime` (exact for years
from 1000 to 9999). -/
def pad4 (n : Nat) : List Char :=
  [Nat.digitChar (n / 1000), Nat.digitChar (n / 100 % 10),
   Nat.digitChar (n / 10 % 10), Nat.digitChar (n % 10)]

/-- formatStopDatetime models
`datetime.combine(stop_date, stop_time).strftime('%Y-%m-%d %H:%M:%S')`
(src/app.py line 431). -/
def formatStopDatetime (d : StopDateTime) : String :=
  ⟨pad4 d.year ++ '-' :: (pad2 d.month ++ '-' :: (pad2 d.day ++
   ' ' :: (pad2 d.hour ++ ':' :: (pad2 d.minute ++ ':' :: pad2 d.second))))⟩

/-- digitVal is the numeric value of a decimal digit character. -/
def digitVal (c : Char) : Nat := c.toNat - '0'.toNat

/-- parse2 reads a two-decimal-digit field. -/
def parse2 : List Char → Option Nat
  | [c1, c2] =>
    if c1.isDigit && c2.isDigit then some (10 * digitVal c1 + digitVal c2) else none
  | _ => none

/-- parse4 reads a four-decimal-digit field. -/
def parse4 : List Char → Option Nat
  | [c1, c2, c3, c4] =>
    if (c1.isDigit && c2.isDigit) && (c3.isDigit && c4.isDigit) then
      some (1000 * digitVal c1 + 100 * digitVal c2 + 10 * digitVal c3 + digitVal c4)
    else none
  | _ => none

/-- expectChar consumes one expected separator character. -/
def expectChar (c : Char) : List Char → Option (List Char)
  | x :: rest => if x = c then some rest else none
  | [] => none

/-- parseStopDatetime models how SQLite's `strftime` reads a TEXT value in
the fixed `YYYY-MM-DD HH:MM:SS` shape (the only shape the ingestion path
ever writes): a value of exactly that shape with decimal digits in every
numeric position yields its six components; anything else yields NULL. -/
def parseStopDatetime (s : String) : Option StopDateTime :=
  (parse4 (s.data.take 4)).bind fun y =>
  (expectChar '-' (s.data.drop 4)).bind fun l1 =>
  (parse2 (l1.take 2)).bind fun mo =>
  (expectChar '-' (l1.drop 2)).bind fun l2 =>
  (parse2 (l2.take 2)).bind fun da =>
  (expectChar ' ' (l2.drop 2)).bind fun l3 =>
  (parse2 (l3.take 2)).bind fun h =>
  (expectChar ':' (l3.drop 2)).bind fun l4 =>
  (parse2 (l4.take 2)).bind fun mi =>
  (expectChar ':' (l4.drop 2)).bind fun l5 =>
  (parse2 (l5.take 2)).bind fun se =>
  if l5.drop 2 = [] then some ⟨y, mo, da, h, mi, se⟩ else none

/-- strftimeYear models `CAST(strftime('%Y', stop_datetime) AS INTEGER)`
as used by the report catalog (src/app.py lines 257, 291). -/
def strftimeYear (s : String) : Option Nat := (parseStopDatetime s).map (·.year)

/-- strftimeMonth models `CAST(strftime('%m', stop_datetime) AS INTEGER)`
(src/app.py line 292). -/
def strftimeMonth (s : String) : Option Nat := (parseStopDatetime s).map (·.month)

/-- strftimeHour models `CAST(strftime('%H', stop_datetime) AS INTEGER)`
(src/app.py lines 153, 177, 293). -/
def strftimeHour (s : String) : Option Nat := (parseStopDatetime s).map (·.hour)

/-- RawInput models the raw field values read from the `new_log_form`
widgets (src/app.py lines 406-421).  `vehicle_number` is the text as typed,
before the `.upper().strip()` applied at line 409.  The two selectboxes for
search/arrest/drug flags only offer 0 and 1, but the integers are kept
unconstrained here, as in the handler itself. -/
structure RawInput where
  stop_date_time : StopDateTime
  country_name : String
  vehicle_number : String
  driver_gender : String
  driver_age : Nat
  driver_race : String
  violation : String
  stop_duration : String
  stop_outcome : String
  search_conducted : Int
  search_type : String
  is_arrested : Int
  drugs_related_stop : Int

/-- priorArrestCount models the flag query of src/app.py line 433:
`SELECT COUNT(*) FROM police_stop_logs WHERE vehicle_number = ? AND
is_arrested = 1` with the normalized vehicle number bound as parameter. -/
def priorArrestCount (db : List StopRecord) (v : String) : Nat :=
  (db.filter (fun r => decide (r.vehicle_number = v ∧ r.is_arrested = 1))).length

/-- IngestOk is the outcome of an accepted ingestion: the new store contents
and the advisory shown to the operator. -/
structure IngestOk where
  newDb : List StopRecord
  advisory : Advisory
deriving DecidableEq, Repr

/-- ingest models the `new_log_form` submit handler (src/app.py lines
426-457).  The vehicle number has already been normalized at widget-read
time (line 409); validation rejects an empty or shorter-than-4 value before
any store access; on acceptance the handler formats the datetime, runs the
prior-arrest flag query, forces `search_type` to "No Search" when
`search_conducted == 0`, and inserts the row (modelled as appending to the
list; the insert of a well-formed tuple into the schema of `init_db`
succeeds). -/
def ingest (db : List StopRecord) (inp : RawInput) : Except String IngestOk :=
  let vehicle_number := normalizeVehicle inp.vehicle_number
  if vehicle_number.data.isEmpty || vehicle_number.length < 4 then
    .error "Provide a valid vehicle number."
  else
    let stop_datetime := formatStopDatetime inp.stop_date_time
    let arrest_count := priorArrestCount db vehicle_number
    let advisory := if 0 < arrest_count then Advisory.alert arrest_count else Advisory.noPrior
    let search_type := if inp.search_conducted = 0 then "No Search" else inp.search_type
    let new_log : StopRecord :=
      { stop_datetime := stop_datetime
      , country_name := inp.country_name
      , vehicle_number := vehicle_number
      , driver_gender := inp.driver_gender
      , driver_age := some (inp.driver_age : Int)
      , driver_race := inp.driver_race
      , violation := inp.violation
      , stop_duration := inp.stop_duration
      , stop_outcome := inp.stop_outcome
      , search_conducted := inp.search_conducted
      , search_type := search_type
      , is_arrested := inp.is_arrested
      , drugs_related_stop := inp.drugs_related_stop }
    .ok { newDb := db ++ [new_log], advisory := advisory }

/-- ingestStep is the store-contents effect of one form submission: a
rejected or failed submission leaves the store unchanged. -/
def ingestStep (db : List StopRecord) (inp : RawInput) : List StopRecord :=
  match ingest db inp with
  | .ok out => out.newDb
  | .error _ => db

/-- ingestAll is the store built from a freshly initialized (empty) table by
a sequence of form submissions — the only way rows are ever created. -/
def ingestAll (inps : List RawInput) : List StopRecord :=
  inps.foldl ingestStep []

/-- groupBy models SQL `GROUP BY` over the store: the distinct keys, each
with the rows of its group.  SQLite fixes the order of groups only through
`ORDER BY`, which each report applies separately; the enumeration order
chosen here is immaterial to the claims, which quantify over result rows. -/
def groupBy {κ : Type} [DecidableEq κ] (db : List StopRecord) (key : StopRecord → κ) :
    List (κ × List StopRecord) :=
  ((db.map key).dedup).map (fun k => (k, db.filter (fun r => decide (key r = k))))

/-- RateRow is a result row of a single-rate report: grouping key,
`COUNT(*)`, the conditional `SUM(CASE WHEN field = 1 THEN 1 ELSE 0 END)`,
and the percentage `CAST(SUM(...) AS REAL) * 100.0 / COUNT(*)`. -/
structure RateRow (κ : Type) where
  key : κ
  total_stops : Nat
  true_count : Nat
  rate_pct : ℚ
deriving DecidableEq, Repr

/-- rateReport is the shared shape of the single-rate catalog entries:
group by `key`, drop groups failing the `HAVING` size test `keep`, and
compute count, conditional sum and percentage per surviving group
(ordering and `LIMIT` are applied by each report). -/
def rateReport {κ : Type} [DecidableEq κ] (db : List StopRecord) (key : StopRecord → κ)
    (field : StopRecord → Int) (keep : Nat → Bool) : List (RateRow κ) :=
  ((groupBy db key).filter (fun g => keep g.2.length)).map (fun g =>
    { key := g.1
    , total_stops := g.2.length
    , true_count := (g.2.filter (fun r => decide (field r = 1))).length
    , rate_pct := ((g.2.filter (fun r => decide (field r = 1))).length : ℚ) * 100 / (g.2.length : ℚ) })

/-- raceGenderSearchRate models SQL_QUERIES["Race+Gender combination with
highest search rate"] (src/app.py lines 140-149): GROUP BY driver_race,
driver_gender; HAVING COUNT(*) >= 20; ORDER BY search_rate_pct DESC;
LIMIT 10. -/
def raceGenderSearchRate (db : List StopRecord) : List (RateRow (String × String)) :=
  ((rateReport db (fun r => (r.driver_race, r.driver_gender)) (·.search_conducted)
      (fun n => decide (20 ≤ n))).insertionSort
    (fun a b => b.rate_pct ≤ a.rate_pct)).take 10

/-- countriesDrugRate models SQL_QUERIES["Countries with highest
drug-related stop rate"] (src/app.py lines 223-232): GROUP BY country_name;
HAVING COUNT(*) > 50; ORDER BY drug_rate_pct DESC; LIMIT 10. -/
def countriesDrugRate (db : List StopRecord) : List (RateRow String) :=
  ((rateReport db (·.country_name) (·.drugs_related_stop)
      (fun n => decide (50 < n))).insertionSort
    (fun a b => b.rate_pct ≤ a.rate_pct)).take 10

/-- arrestRateCountryViolation models SQL_QUERIES["Arrest rate by country
and violation"] (src/app.py lines 233-242): GROUP BY country_name,
violation; HAVING COUNT(*) >= 10; ORDER BY arrest_rate_pct DESC;
LIMIT 50. -/
def arrestRateCountryViolation (db : List StopRecord) : List (RateRow (String × String)) :=
  ((rateReport db (fun r => (r.country_name, r.violation)) (·.is_arrested)
      (fun n => decide (10 ≤ n))).insertionSort
    (fun a b => b.rate_pct ≤ a.rate_pct)).take 50

/-- top5ViolationsArrestRate models SQL_QUERIES["Top 5 violations with
highest arrest rates"] (src/app.py lines 334-343): GROUP BY violation;
HAVING COUNT(*) >= 30; ORDER BY arrest_rate_pct DESC; LIMIT 5. -/
def top5ViolationsArrestRate (db : List StopRecord) : List (RateRow String) :=
  ((rateReport db (·.violation) (·.is_arrested)
      (fun n => decide (30 ≤ n))).insertionSort
    (fun a b => b.rate_pct ≤ a.rate_pct)).take 5

/-- RateRow2 is a result row of the two-rate violation reports: `COUNT(*)`,
the search and arrest conditional sums, and both percentages. -/
structure RateRow2 where
  violation : String
  total_stops : Nat
  searches : Nat
  arrests : Nat
  search_rate_pct : ℚ
  arrest_rate_pct : ℚ
deriving DecidableEq, Repr

/-- violationStats is the shared grouped/filtered core of the three
violation reports that compute both a search rate and an arrest rate. -/
def violationStats (db : List StopRecord) (keep : Nat → Bool) : List RateRow2 :=
  ((groupBy db (·.violation)).filter (fun g => keep g.2.length)).map (fun g =>
    { violation := g.1
    , total_stops := g.2.length
    , searches := (g.2.filter (fun r => decide (r.search_conducted = 1))).length
    , arrests := (g.2.filter (fun r => decide (r.is_arrested = 1))).length
    , search_rate_pct :=
        ((g.2.filter (fun r => decide (r.search_conducted = 1))).length : ℚ) * 100 / (g.2.length : ℚ)
    , arrest_rate_pct :=
        ((g.2.filter (fun r => decide (r.is_arrested = 1))).length : ℚ) * 100 / (g.2.length : ℚ) })

/-- violationsSearchArrest models SQL_QUERIES["Violations most associated
with searches or arrests"] (src/app.py lines 190-200): HAVING COUNT(*) > 10;
ORDER BY arrest_rate_pct DESC, search_rate_pct DESC. -/
def violationsSearchArrest (db : List StopRecord) : List RateRow2 :=
  (violationStats db (fun n => decide (10 < n))).insertionSort
    (fun a b => b.arrest_rate_pct < a.arrest_rate_pct ∨
      (a.arrest_rate_pct = b.arrest_rate_pct ∧ b.search_rate_pct ≤ a.search_rate_pct))

/-- violationsRareSearchArrest models SQL_QUERIES["Violations that rarely
result in search or arrest"] (src/app.py lines 211-220): HAVING COUNT(*)
> 50; ORDER BY (search_rate_pct + arrest_rate_pct) ASC; LIMIT 10. -/
def violationsRareSearchArrest (db : List StopRecord) : List RateRow2 :=
  ((violationStats db (fun n => decide (50 < n))).insertionSort
    (fun a b => a.search_rate_pct + a.arrest_rate_pct ≤ b.search_rate_pct + b.arrest_rate_pct)).take 10

/-- sqlRank models `RANK() OVER (ORDER BY f DESC)`: one plus the number of
rows of the window strictly ahead in the ordering. -/
def sqlRank (l : List RateRow2) (f : RateRow2 → ℚ) (x : RateRow2) : Nat :=
  1 + (l.filter (fun y => decide (f x < f y))).length

/-- RankedRow is a result row of the ranked violations report: the stats
columns plus the two rank columns. -/
structure RankedRow where
  stats : RateRow2
  rank_by_arrest_rate : Nat
  rank_by_search_rate : Nat
deriving DecidableEq, Repr

/-- violationsRanked models SQL_QUERIES["Violations with high search &
arrest rates (ranked)"] (src/app.py lines 299-315): the `stats` CTE groups
by violation with HAVING COUNT(*) > 30, two RANK() columns are added over
the arrest-rate and search-rate descending orderings, then ORDER BY
rank_by_arrest_rate, rank_by_search_rate; LIMIT 30. -/
def violationsRanked (db : List StopRecord) : List RankedRow :=
  let stats := violationStats db (fun n => decide (30 < n))
  ((stats.map (fun s =>
      { stats := s
      , rank_by_arrest_rate := sqlRank stats (·.arrest_rate_pct) s
      , rank_by_search_rate := sqlRank stats (·.search_rate_pct) s })).insertionSort
    (fun a b => a.rank_by_arrest_rate < b.rank_by_arrest_rate ∨
      (a.rank_by_arrest_rate = b.rank_by_arrest_rate ∧
        a.rank_by_search_rate ≤ b.rank_by_search_rate))).take 30

/-- charListLe decides the byte-wise (BINARY-collation) order SQLite uses
to compare the TEXT `stop_datetime` values, on their character lists. -/
def charListLe : List Char → List Char → Bool
  | [], _ => true
  | _ :: _, [] => false
  | a :: as, b :: bs => if a = b then charListLe as bs else decide (a < b)

/-- datetimeDesc is the `ORDER BY stop_datetime DESC` relation of the
vehicle-history query. -/
def datetimeDesc (a b : StopRecord) : Prop :=
  charListLe b.stop_datetime.data a.stop_datetime.data = true

instance : DecidableRel datetimeDesc := fun a b => by
  unfold datetimeDesc; infer_instance

/-- vehicleHistory models the lookup of src/app.py lines 466-471: the
lookup string is normalized with `.upper().strip()`, then
`SELECT * FROM police_stop_logs WHERE vehicle_number = ?
ORDER BY stop_datetime DESC LIMIT 200` runs with it bound as parameter. -/
def vehicleHistory (db : List StopRecord) (rawLookup : String) : List StopRecord :=
  let v := normalizeVehicle rawLookup
  ((db.filter (fun r => decide (r.vehicle_number = v))).insertionSort datetimeDesc).take 200

/-- DbEvent is a connection-lifecycle event of one store operation:
`sqlite3.connect` (openConn), a cursor/read execution (execute), a commit,
and `conn.close()` (closeConn). -/
inductive DbEvent
  | openConn
  | execute
  | commit
  | closeConn
deriving DecidableEq, Repr

/-- opTrace pairs the ordered connection-lifecycle events of one store
operation with whether the operation succeeded; `fail` says whether the
underlying database execution raises. -/
abbrev OpTrace := List DbEvent × Bool

/-- init_db models src/app.py lines 25-48: connect, execute CREATE TABLE,
commit, close — written with no try/finally, so when the execution raises,
the exception propagates and `conn.close()` on line 48 is never reached. -/
def init_db (fail : Bool) : OpTrace :=
  if fail then ([.openConn, .execute], false)
  else ([.openConn, .execute, .commit, .closeConn], true)

/-- run_query models src/app.py lines 50-59: connect, then
`try: pd.read_sql_query ... finally: conn.close()` — the close runs on the
success path and on the raising path alike. -/
def run_query (fail : Bool) : OpTrace :=
  if fail then ([.openConn, .execute, .closeConn], false)
  else ([.openConn, .execute, .closeConn], true)

/-- insert_log models src/app.py lines 61-77: connect, then
`try: execute; commit; return ... finally: conn.close()`. -/
def insert_log (fail : Bool) : OpTrace :=
  if fail then ([.openConn, .execute, .closeConn], false)
  else ([.openConn, .execute, .commit, .closeConn], true)

/-- get_table_info models src/app.py lines 79-86: connect, then
`try: PRAGMA table_info; fetchall ... finally: conn.close()`. -/
def get_table_info (fail : Bool) : OpTrace :=
  if fail then ([.openConn, .execute, .closeConn], false)
  else ([.openConn, .execute, .closeConn], true)

/-- releasesConnection says a trace closes as many connections as it
opens, i.e. the operation's connection is released on that path. -/
def releasesConnection (t : List DbEvent) : Prop :=
  (t.count DbEvent.closeConn) = (t.count DbEvent.openConn)

instance (t : List DbEvent) : Decidable (releasesConnection t) := by
  unfold releasesConnection; infer_instance

/-- findSub finds the index of the first occurrence of `pat` in `hay`: the
search behind Python's substring operator `in` and `str.replace`. -/
def findSub (pat : List Char) : List Char → Option Nat
  | [] => if pat.isEmpty then some 0 else none
  | c :: rest =>
    if pat.isPrefixOf (c :: rest) then some 0
    else (findSub pat rest).map (· + 1)

/-- containsSub decides Python's substring test `pat in hay`. -/
def containsSub (pat hay : List Char) : Bool := (findSub pat hay).isSome

/-- replaceFirst models Python `hay.replace(pat, rep, 1)` for non-empty
`pat`: the leftmost occurrence of `pat`, when there is one, is replaced by
`rep`; a string without an occurrence is returned unchanged. -/
def replaceFirst (pat rep : List Char) : List Char → List Char
  | [] => []
  | c :: rest =>
    if pat.isPrefixOf (c :: rest) then rep ++ (c :: rest).drop pat.length
    else c :: replaceFirst pat rep rest

/-- preAt is the text before the first occurrence of `pat` in `hay`. -/
def preAt (pat hay : List Char) : List Char :=
  hay.take ((findSub pat hay).getD 0)

/-- postAt is the text after the first occurrence of `pat` in `hay`. -/
def postAt (pat hay : List Char) : List Char :=
  hay.drop ((findSub pat hay).getD 0 + pat.length)

/-- applyCountryFilter models the module-level country-filter rewrite of
src/app.py lines 493-501: when the selected definition mentions
`country_name` and the filter string is truthy (non-empty), the first
`WHERE` is turned into `WHERE country_name = ? AND ` if the text contains
`WHERE` (checked case-insensitively via `.upper()`), else the first
`GROUP BY` is turned into `WHERE country_name = ? GROUP BY`, and the filter
value is appended to the parameter list; otherwise text and parameters are
left untouched.  The result is the executed query text and parameter
list. -/
def applyCountryFilter (query_to_run country_filter : String) : String × List String :=
  if containsSub "country_name".data query_to_run.data && !country_filter.data.isEmpty then
    if containsSub "WHERE".data (query_to_run.data.map Char.toUpper) then
      (⟨replaceFirst "WHERE".data "WHERE country_name = ? AND ".data query_to_run.data⟩,
       [country_filter])
    else
      (⟨replaceFirst "GROUP BY".data "WHERE country_name = ? GROUP BY".data query_to_run.data⟩,
       [country_filter])
  else (query_to_run, [])

/-- SQL_QUERIES is the fixed report catalog of src/app.py lines 91-344,
with each definition text verbatim (apostrophes written as \x27). -/
def SQL_QUERIES : List (String × String) := [
  ("Top 10 vehicles in drug-related stops",
   "
        SELECT vehicle_number, COUNT(*) AS drug_stop_count
        FROM police_stop_logs
        WHERE drugs_related_stop = 1
        GROUP BY vehicle_number
        ORDER BY drug_stop_count DESC
        LIMIT 10;
    "),
  ("Most frequently searched vehicles (Top 20)",
   "
        SELECT vehicle_number, COUNT(*) AS search_count
        FROM police_stop_logs
        WHERE search_conducted = 1
        GROUP BY vehicle_number
        ORDER BY search_count DESC
        LIMIT 20;
    "),
  ("Driver age group with highest arrest rate",
   "
        WITH age_buckets AS (
          SELECT
            CASE
              WHEN driver_age < 18 THEN \x27<18\x27
              WHEN driver_age BETWEEN 18 AND 24 THEN \x2718-24\x27
              WHEN driver_age BETWEEN 25 AND 34 THEN \x2725-34\x27
              WHEN driver_age BETWEEN 35 AND 44 THEN \x2735-44\x27
              WHEN driver_age BETWEEN 45 AND 54 THEN \x2745-54\x27
              WHEN driver_age >= 55 THEN \x2755+\x27
              ELSE \x27Unknown\x27
            END AS age_group,
            is_arrested
          FROM police_stop_logs
        )
        SELECT age_group,
               COUNT(*) AS total_stops,
               SUM(CASE WHEN is_arrested = 1 THEN 1 ELSE 0 END) AS arrests,
               CAST(SUM(CASE WHEN is_arrested = 1 THEN 1 ELSE 0 END) AS REAL) * 100.0 / COUNT(*) AS arrest_rate_pct
        FROM age_buckets
        GROUP BY age_group
        ORDER BY arrest_rate_pct DESC;
    "),
  ("Gender distribution by country",
   "
        SELECT country_name, driver_gender, COUNT(*) AS stops
        FROM police_stop_logs
        GROUP BY country_name, driver_gender
        ORDER BY country_name, stops DESC;
    "),
  ("Race+Gender combination with highest search rate",
   "
        SELECT driver_race, driver_gender, COUNT(*) AS total_stops,
               SUM(CASE WHEN search_conducted = 1 THEN 1 ELSE 0 END) AS searches,
               CAST(SUM(CASE WHEN search_conducted = 1 THEN 1 ELSE 0 END) AS REAL) * 100.0 / COUNT(*) AS search_rate_pct
        FROM police_stop_logs
        GROUP BY driver_race, driver_gender
        HAVING COUNT(*) >= 20
        ORDER BY search_rate_pct DESC
        LIMIT 10;
    "),
  ("Stops by hour of day",
   "
        SELECT CAST(strftime(\x27%H\x27, stop_datetime) AS INTEGER) AS hour_of_day, COUNT(*) AS stops
        FROM police_stop_logs
        WHERE stop_datetime IS NOT NULL
        GROUP BY hour_of_day
        ORDER BY stops DESC;
    "),
  ("Average stop duration for each violation (minutes)",
   "
        WITH mapped AS (
          SELECT violation,
                 CASE stop_duration
                   WHEN \x270-15 Min\x27 THEN 7.5
                   WHEN \x2716-30 Min\x27 THEN 23.0
                   WHEN \x27>30 Min\x27 THEN 45.0
                   ELSE NULL
                 END AS duration_minutes
          FROM police_stop_logs
        )
        SELECT violation, COUNT(duration_minutes) AS n_samples, AVG(duration_minutes) AS avg_duration_minutes
        FROM mapped
        GROUP BY violation
        ORDER BY avg_duration_minutes DESC;
    "),
  ("Are night stops more likely to lead to arrests?",
   "
        WITH flagged AS (
          SELECT *, CAST(strftime(\x27%H\x27, stop_datetime) AS INTEGER) AS hour
          FROM police_stop_logs
        )
        SELECT CASE WHEN hour >= 20 OR hour <= 4 THEN \x27night\x27 ELSE \x27day\x27 END AS period,
               COUNT(*) AS total_stops,
               SUM(CASE WHEN is_arrested = 1 THEN 1 ELSE 0 END) AS arrests,
               CAST(SUM(CASE WHEN is_arrested = 1 THEN 1 ELSE 0 END) AS REAL) * 100.0 / COUNT(*) AS arrest_rate_pct
        FROM flagged
        GROUP BY period
        ORDER BY arrest_rate_pct DESC;
    "),
  ("Violations most associated with searches or arrests",
   "
        SELECT violation, COUNT(*) AS total_stops,
               SUM(CASE WHEN search_conducted = 1 THEN 1 ELSE 0 END) AS searches,
               SUM(CASE WHEN is_arrested = 1 THEN 1 ELSE 0 END) AS arrests,
               CAST(SUM(CASE WHEN search_conducted = 1 THEN 1 ELSE 0 END) AS REAL) * 100.0 / COUNT(*) AS search_rate_pct,
               CAST(SUM(CASE WHEN is_arrested = 1 THEN 1 ELSE 0 END) AS REAL) * 100.0 / COUNT(*) AS arrest_rate_pct
        FROM police_stop_logs
        GROUP BY violation
        HAVING COUNT(*) > 10
        ORDER BY arrest_rate_pct DESC, search_rate_pct DESC;
    "),
  ("Violations common among drivers <25",
   "
        SELECT violation,
               COUNT(*) AS stops_under25,
               CAST(COUNT(*) AS REAL) / (SELECT COUNT(*) FROM police_stop_logs WHERE driver_age < 25) * 100.0 AS pct_of_under25_stops
        FROM police_stop_logs
        WHERE driver_age < 25
        GROUP BY violation
        ORDER BY stops_under25 DESC
        LIMIT 20;
    "),
  ("Violations that rarely result in search or arrest",
   "
        SELECT violation, COUNT(*) AS total_stops,
               CAST(SUM(CASE WHEN search_conducted = 1 THEN 1 ELSE 0 END) AS REAL) * 100.0 / COUNT(*) AS search_rate_pct,
               CAST(SUM(CASE WHEN is_arrested = 1 THEN 1 ELSE 0 END) AS REAL) * 100.0 / COUNT(*) AS arrest_rate_pct
        FROM police_stop_logs
        GROUP BY violation
        HAVING COUNT(*) > 50
        ORDER BY (search_rate_pct + arrest_rate_pct) ASC
        LIMIT 10;
    "),
  ("Countries with highest drug-related stop rate",
   "
        SELECT country_name, COUNT(*) AS total_stops,
               SUM(CASE WHEN drugs_related_stop = 1 THEN 1 ELSE 0 END) AS drug_stops,
               CAST(SUM(CASE WHEN drugs_related_stop = 1 THEN 1 ELSE 0 END) AS REAL) * 100.0 / COUNT(*) AS drug_rate_pct
        FROM police_stop_logs
        GROUP BY country_name
        HAVING COUNT(*) > 50
        ORDER BY drug_rate_pct DESC
        LIMIT 10;
    "),
  ("Arrest rate by country and violation",
   "
        SELECT country_name, violation, COUNT(*) AS total_stops,
               SUM(CASE WHEN is_arrested = 1 THEN 1 ELSE 0 END) AS arrests,
               CAST(SUM(CASE WHEN is_arrested = 1 THEN 1 ELSE 0 END) AS REAL) * 100.0 / COUNT(*) AS arrest_rate_pct
        FROM police_stop_logs
        GROUP BY country_name, violation
        HAVING COUNT(*) >= 10
        ORDER BY arrest_rate_pct DESC
        LIMIT 50;
    "),
  ("Country with most searches conducted",
   "
        SELECT country_name,
               SUM(CASE WHEN search_conducted = 1 THEN 1 ELSE 0 END) AS searches,
               COUNT(*) AS total_stops,
               CAST(SUM(CASE WHEN search_conducted = 1 THEN 1 ELSE 0 END) AS REAL) * 100.0 / COUNT(*) AS search_rate_pct
        FROM police_stop_logs
        GROUP BY country_name
        ORDER BY searches DESC
        LIMIT 10;
    "),
  ("Yearly breakdown of stops and arrests by country",
   "
        WITH parsed AS (
          SELECT country_name, CAST(strftime(\x27%Y\x27, stop_datetime) AS INTEGER) AS year, is_arrested
          FROM police_stop_logs
        )
        SELECT country_name, year,
               COUNT(*) AS stops,
               SUM(CASE WHEN is_arrested = 1 THEN 1 ELSE 0 END) AS arrests,
               CAST(SUM(CASE WHEN is_arrested = 1 THEN 1 ELSE 0 END) AS REAL) * 100.0 / COUNT(*) AS arrest_rate_pct,
               SUM(COUNT(*)) OVER (PARTITION BY country_name ORDER BY year ROWS BETWEEN UNBOUNDED PRECEDING AND CURRENT ROW) AS running_stops
        FROM parsed
        GROUP BY country_name, year
        ORDER BY country_name, year;
    "),
  ("Driver violation trends by age & race",
   "
        WITH age_grouped AS (
          SELECT *,
            CASE
              WHEN driver_age < 18 THEN \x27<18\x27
              WHEN driver_age BETWEEN 18 AND 24 THEN \x2718-24\x27
              WHEN driver_age BETWEEN 25 AND 34 THEN \x2725-34\x27
              WHEN driver_age BETWEEN 35 AND 44 THEN \x2735-44\x27
              WHEN driver_age BETWEEN 45 AND 54 THEN \x2745-54\x27
              WHEN driver_age >= 55 THEN \x2755+\x27
              ELSE \x27Unknown\x27 END AS age_group
          FROM police_stop_logs
        )
        SELECT age_group, driver_race, violation,
               COUNT(*) AS stops,
               CAST(COUNT(*) AS REAL) * 100.0 / (SELECT COUNT(*) FROM police_stop_logs WHERE driver_age IS NOT NULL AND driver_age >= 0) AS pct_of_all_stops
        FROM age_grouped
        GROUP BY age_group, driver_race, violation
        ORDER BY age_group, stops DESC
        LIMIT 200;
    "),
  ("Stops by year, month, hour",
   "
        SELECT CAST(strftime(\x27%Y\x27, stop_datetime) AS INTEGER) AS year,
               CAST(strftime(\x27%m\x27, stop_datetime) AS INTEGER) AS month,
               CAST(strftime(\x27%H\x27, stop_datetime) AS INTEGER) AS hour,
               COUNT(*) AS stops
        FROM police_stop_logs
        GROUP BY year, month, hour
        ORDER BY year DESC, month DESC, hour;
    "),
  ("Violations with high search & arrest rates (ranked)",
   "
        WITH stats AS (
          SELECT violation, COUNT(*) AS total,
                 SUM(CASE WHEN search_conducted = 1 THEN 1 ELSE 0 END) AS searches,
                 SUM(CASE WHEN is_arrested = 1 THEN 1 ELSE 0 END) AS arrests,
                 CAST(SUM(CASE WHEN search_conducted = 1 THEN 1 ELSE 0 END) AS REAL) * 100.0 / COUNT(*) AS search_rate_pct,
                 CAST(SUM(CASE WHEN is_arrested = 1 THEN 1 ELSE 0 END) AS REAL) * 100.0 / COUNT(*) AS arrest_rate_pct
          FROM police_stop_logs
          GROUP BY violation
          HAVING COUNT(*) > 30
        )
        SELECT *, RANK() OVER (ORDER BY arrest_rate_pct DESC) AS rank_by_arrest_rate,
                  RANK() OVER (ORDER BY search_rate_pct DESC) AS rank_by_search_rate
        FROM stats
        ORDER BY rank_by_arrest_rate, rank_by_search_rate
        LIMIT 30;
    "),
  ("Driver demographics by country",
   "
        SELECT country_name, driver_gender,
               CASE
                 WHEN driver_age < 18 THEN \x27<18\x27
                 WHEN driver_age BETWEEN 18 AND 24 THEN \x2718-24\x27
                 WHEN driver_age BETWEEN 25 AND 34 THEN \x2725-34\x27
                 WHEN driver_age BETWEEN 35 AND 44 THEN \x2735-44\x27
                 WHEN driver_age BETWEEN 45 AND 54 THEN \x2745-54\x27
                 WHEN driver_age >= 55 THEN \x2755+\x27
                 ELSE \x27Unknown\x27
               END AS age_group,
               driver_race,
               COUNT(*) AS stops
        FROM police_stop_logs
        GROUP BY country_name, driver_gender, age_group, driver_race
        ORDER BY country_name, stops DESC
        LIMIT 500;
    "),
  ("Top 5 violations with highest arrest rates",
   "
        SELECT violation, COUNT(*) AS total_stops,
               SUM(CASE WHEN is_arrested = 1 THEN 1 ELSE 0 END) AS arrests,
               CAST(SUM(CASE WHEN is_arrested = 1 THEN 1 ELSE 0 END) AS REAL) * 100.0 / COUNT(*) AS arrest_rate_pct
        FROM police_stop_logs
        GROUP BY violation
        HAVING COUNT(*) >= 30
        ORDER BY arrest_rate_pct DESC
        LIMIT 5;
    ")]

/-- newRecordOf is the row the submit handler builds and inserts
(src/app.py lines 444-448) from an accepted input, with the normalized
vehicle number, the formatted datetime and the search_type consistency
rule of lines 441-442 applied. -/
def newRecordOf (inp : RawInput) : StopRecord :=
  { stop_datetime := formatStopDatetime inp.stop_date_time
  , country_name := inp.country_name
  , vehicle_number := normalizeVehicle inp.vehicle_number
  , driver_gender := inp.driver_gender
  , driver_age := some (inp.driver_age : Int)
  , driver_race := inp.driver_race
  , violation := inp.violation
  , stop_duration := inp.stop_duration
  , stop_outcome := inp.stop_outcome
  , search_conducted := inp.search_conducted
  , search_type := if inp.search_conducted = 0 then "No Search" else inp.search_type
  , is_arrested := inp.is_arrested
  , drugs_related_stop := inp.drugs_related_stop }

/-- rateRowCorrect states what the spec requires of a surviving single-rate
row: its count is the size of its group in the store, its conditional sum
counts the group rows whose boolean field is 1, and its percentage is
100 · true_count / total_count. -/
def rateRowCorrect {κ : Type} [DecidableEq κ] (db : List StopRecord) (key : StopRecord → κ)
    (field : StopRecord → Int) (row : RateRow κ) : Prop :=
  row.total_stops = (db.filter (fun r => decide (key r = row.key))).length ∧
  row.true_count =
    ((db.filter (fun r => decide (key r = row.key))).filter
      (fun r => decide (field r = 1))).length ∧
  row.rate_pct = 100 * (row.true_count : ℚ) / (row.total_stops : ℚ)

/-- rateRow2Correct is the same requirement for the two-rate violation
rows (search rate and arrest rate). -/
def rateRow2Correct (db : List StopRecord) (row : RateRow2) : Prop :=
  row.total_stops = (db.filter (fun r => decide (r.violation = row.violation))).length ∧
  row.searches =
    ((db.filter (fun r => decide (r.violation = row.violation))).filter
      (fun r => decide (r.search_conducted = 1))).length ∧
  row.arrests =
    ((db.filter (fun r => decide (r.violation = row.violation))).filter
      (fun r => decide (r.is_arrested = 1))).length ∧
  row.search_rate_pct = 100 * (row.searches : ℚ) / (row.total_stops : ℚ) ∧
  row.arrest_rate_pct = 100 * (row.arrests : ℚ) / (row.total_stops : ℚ)

/-- sampleInput1 is the spec scenario input: vehicle RJ01AB1234 with
is_arrested = 1, and a caller-supplied search_type "Frisk" despite
search_conducted = 0. -/
def sampleInput1 : RawInput :=
  { stop_date_time := ⟨2024, 1, 1, 10, 0, 0⟩
  , country_name := "India"
  , vehicle_number := "RJ01AB1234"
  , driver_gender := "M"
  , driver_age := 30
  , driver_race := "Other"
  , violation := "Speeding"
  , stop_duration := "0-15 Min"
  , stop_outcome := "Arrest"
  , search_conducted := 0
  , search_type := "Frisk"
  , is_arrested := 1
  , drugs_related_stop := 0 }

/-- sampleInput2 is a second stop of the same vehicle. -/
def sampleInput2 : RawInput :=
  { sampleInput1 with stop_outcome := "Warning", is_arrested := 0 }

/-- sampleRecord1 is the row `ingest` persists for `sampleInput1`. -/
def sampleRecord1 : StopRecord :=
  { stop_datetime := "2024-01-01 10:00:00"
  , country_name := "India"
  , vehicle_number := "RJ01AB1234"
  , driver_gender := "M"
  , driver_age := some 30
  , driver_race := "Other"
  , violation := "Speeding"
  , stop_duration := "0-15 Min"
  , stop_outcome := "Arrest"
  , search_conducted := 0
  , search_type := "No Search"
  , is_arrested := 1
  , drugs_related_stop := 0 }

/-- sampleRecord2 is the row `ingest` persists for `sampleInput2`. -/
def sampleRecord2 : StopRecord :=
  { sampleRecord1 with stop_outcome := "Warning", is_arrested := 0 }

/-- sampleOut1 is the outcome of ingesting `sampleInput1` into an empty
store: record appended, no prior arrests. -/
def sampleOut1 : IngestOk := { newDb := [sampleRecord1], advisory := .noPrior }

/-- sampleOut2 is the outcome of the second ingestion: the prior-arrest
advisory fires with count 1. -/
def sampleOut2 : IngestOk := { newDb := [sampleRecord1, sampleRecord2], advisory := .alert 1 }

/-- sampleShortInput has a vehicle number that normalizes to "AB"
(two characters), so validation must reject it. -/
def sampleShortInput : RawInput := { sampleInput1 with vehicle_number := " ab " }

/-- witnessDrugDb is the spec scenario store: 60 records for country India,
5 of them drug-related. -/
def witnessDrugDb : List StopRecord :=
  List.replicate 5 { sampleRecord1 with drugs_related_stop := 1 } ++
    List.replicate 55 sampleRecord1

set_option maxRecDepth 40000

attribute [local semireducible] Rat.mul Rat.add Rat.sub Rat.inv

lemma ingest_ok_shape {db : List StopRecord} {inp : RawInput} {out : IngestOk}
    (h : ingest db inp = .ok out) :
    out.newDb = db ++ [newRecordOf inp] ∧
    out.advisory =
      (if 0 < priorArrestCount db (normalizeVehicle inp.vehicle_number) then
        Advisory.alert (priorArrestCount db (normalizeVehicle inp.vehicle_number))
      else Advisory.noPrior) := by
  unfold ingest at h
  by_cases hv : ((normalizeVehicle inp.vehicle_number).data.isEmpty
      || decide ((normalizeVehicle inp.vehicle_number).length < 4)) = true
  · rw [if_pos hv] at h
    exact absurd h (by simp)
  · rw [if_neg hv] at h
    cases h
    exact ⟨rfl, rfl⟩

lemma ingest_rejected (db : List StopRecord) {inp : RawInput}
    (h : (normalizeVehicle inp.vehicle_number).data.isEmpty = true ∨
      (normalizeVehicle inp.vehicle_number).length < 4) :
    ingest db inp = .error "Provide a valid vehicle number." := by
  have hc : ((normalizeVehicle inp.vehicle_number).data.isEmpty
      || decide ((normalizeVehicle inp.vehicle_number).length < 4)) = true := by
    rcases h with h | h
    · rw [h, Bool.true_or]
    · rw [decide_eq_true h, Bool.or_true]
  unfold ingest
  rw [if_pos hc]

lemma search_type_step (db : List StopRecord) (inp : RawInput)
    (hdb : ∀ rec ∈ db, rec.search_conducted = 0 → rec.search_type = "No Search") :
    ∀ rec ∈ ingestStep db inp, rec.search_conducted = 0 → rec.search_type = "No Search" := by
  intro rec hrec h0
  unfold ingestStep at hrec
  rcases hI : ingest db inp with e | out
  · rw [hI] at hrec
    exact hdb rec hrec h0
  · rw [hI] at hrec
    have hrec2 : rec ∈ out.newDb := hrec
    rw [(ingest_ok_shape hI).1] at hrec2
    rcases List.mem_append.mp hrec2 with hmem | hmem
    · exact hdb rec hmem h0
    · rcases List.mem_singleton.mp hmem with rfl
      have hc : inp.search_conducted = 0 := h0
      show (if inp.search_conducted = 0 then "No Search" else inp.search_type) = "No Search"
      rw [if_pos hc]

lemma search_type_foldl (inps : List RawInput) :
    ∀ db, (∀ rec ∈ db, rec.search_conducted = 0 → rec.search_type = "No Search") →
      ∀ rec ∈ inps.foldl ingestStep db, rec.search_conducted = 0 →
        rec.search_type = "No Search" := by
  induction inps with
  | nil => intro db hdb; simpa using hdb
  | cons inp rest ih =>
    intro db hdb
    exact ih (ingestStep db inp) (search_type_step db inp hdb)

lemma digit_isDigit : ∀ n : Nat, n < 10 → (Nat.digitChar n).isDigit = true := by decide

lemma digitVal_digitChar : ∀ n : Nat, n < 10 → digitVal (Nat.digitChar n) = n := by decide

lemma expectChar_cons (c : Char) (l : List Char) : expectChar c (c :: l) = some l := by
  simp [expectChar]

lemma parse2_pad2 (n : Nat) (h : n < 100) : parse2 (pad2 n) = some n := by
  have h1 : n / 10 < 10 := by omega
  have h2 : n % 10 < 10 := by omega
  simp only [pad2, parse2]
  rw [digit_isDigit _ h1, digit_isDigit _ h2, digitVal_digitChar _ h1, digitVal_digitChar _ h2]
  simp only [Bool.and_self, if_true]
  exact congrArg some (by omega)

lemma parse4_pad4 (n : Nat) (h : n < 10000) : parse4 (pad4 n) = some n := by
  have h1 : n / 1000 < 10 := by omega
  have h2 : n / 100 % 10 < 10 := by omega
  have h3 : n / 10 % 10 < 10 := by omega
  have h4 : n % 10 < 10 := by omega
  simp only [pad4, parse4]
  rw [digit_isDigit _ h1, digit_isDigit _ h2, digit_isDigit _ h3, digit_isDigit _ h4,
    digitVal_digitChar _ h1, digitVal_digitChar _ h2, digitVal_digitChar _ h3,
    digitVal_digitChar _ h4]
  simp only [Bool.and_self, if_true]
  exact congrArg some (by omega)

lemma length_pad2 (n : Nat) : (pad2 n).length = 2 := rfl

lemma length_pad4 (n : Nat) : (pad4 n).length = 4 := rfl

lemma take2_pad2 (n : Nat) : (pad2 n).take 2 = pad2 n := rfl

lemma drop2_pad2 (n : Nat) : (pad2 n).drop 2 = [] := rfl

lemma parseStopDatetime_format (d : StopDateTime) (hy : d.year ≤ 9999) (hmo : d.month ≤ 99)
    (hda : d.day ≤ 99) (hh : d.hour ≤ 99) (hmi : d.minute ≤ 99) (hse : d.second ≤ 99) :
    parseStopDatetime (formatStopDatetime d) = some d := by
  obtain ⟨y, mo, da, h, mi, se⟩ := d
  simp only at hy hmo hda hh hmi hse
  simp only [parseStopDatetime, formatStopDatetime]
  rw [List.take_left' (length_pad4 y), List.drop_left' (length_pad4 y),
    parse4_pad4 y (by omega), expectChar_cons]
  simp only [Option.some_bind]
  rw [List.take_left' (length_pad2 mo), List.drop_left' (length_pad2 mo),
    parse2_pad2 mo (by omega), expectChar_cons]
  simp only [Option.some_bind]
  rw [List.take_left' (length_pad2 da), List.drop_left' (length_pad2 da),
    parse2_pad2 da (by omega), expectChar_cons]
  simp only [Option.some_bind]
  rw [List.take_left' (length_pad2 h), List.drop_left' (length_pad2 h),
    parse2_pad2 h (by omega), expectChar_cons]
  simp only [Option.some_bind]
  rw [List.take_left' (length_pad2 mi), List.drop_left' (length_pad2 mi),
    parse2_pad2 mi (by omega), expectChar_cons]
  simp only [Option.some_bind]
  rw [take2_pad2, drop2_pad2, parse2_pad2 se (by omega)]
  simp

lemma inAgeBand_lt18 (a : Int) : inAgeBand "<18" a = decide (a < 18) := rfl
lemma inAgeBand_18_24 (a : Int) : inAgeBand "18-24" a = decide (18 ≤ a ∧ a ≤ 24) := rfl
lemma inAgeBand_25_34 (a : Int) : inAgeBand "25-34" a = decide (25 ≤ a ∧ a ≤ 34) := rfl
lemma inAgeBand_35_44 (a : Int) : inAgeBand "35-44" a = decide (35 ≤ a ∧ a ≤ 44) := rfl
lemma inAgeBand_45_54 (a : Int) : inAgeBand "45-54" a = decide (45 ≤ a ∧ a ≤ 54) := rfl
lemma inAgeBand_55 (a : Int) : inAgeBand "55+" a = decide (55 ≤ a) := rfl

lemma bands_disjoint (a : Int) : ∀ b1 ∈ sixAgeBands, ∀ b2 ∈ sixAgeBands,
    inAgeBand b1 a = true → inAgeBand b2 a = true → b1 = b2 := by
  intro b1 hb1 b2 hb2
  fin_cases hb1 <;> fin_cases hb2 <;>
    simp only [inAgeBand_lt18, inAgeBand_18_24, inAgeBand_25_34, inAgeBand_35_44,
      inAgeBand_45_54, inAgeBand_55, decide_eq_true_eq] <;>
    (intro hx hy; first | trivial | (exfalso; omega))

lemma charListLe_trans :
    ∀ x y z : List Char, charListLe x y = true → charListLe y z = true →
      charListLe x z = true := by
  intro x
  induction x with
  | nil => intro y z _ _; rfl
  | cons a as ih =>
    intro y z hxy hyz
    cases y with
    | nil => simp [charListLe] at hxy
    | cons b bs =>
      cases z with
      | nil => simp [charListLe] at hyz
      | cons c cs =>
        simp only [charListLe] at hxy hyz ⊢
        by_cases hab : a = b
        · subst hab
          rw [if_pos rfl] at hxy
          by_cases hac : a = c
          · subst hac
            rw [if_pos rfl] at hyz ⊢
            exact ih bs cs hxy hyz
          · rw [if_neg hac] at hyz ⊢
            exact hyz
        · rw [if_neg hab] at hxy
          have hab2 : a < b := of_decide_eq_true hxy
          by_cases hbc : b = c
          · subst hbc
            rw [if_neg hab]
            exact decide_eq_true hab2
          · rw [if_neg hbc] at hyz
            have hbc2 : b < c := of_decide_eq_true hyz
            have hac2 : a < c := lt_trans hab2 hbc2
            rw [if_neg (ne_of_lt hac2)]
            exact decide_eq_true hac2

lemma charListLe_total :
    ∀ x y : List Char, charListLe x y = true ∨ charListLe y x = true := by
  intro x
  induction x with
  | nil => intro y; exact Or.inl rfl
  | cons a as ih =>
    intro y
    cases y with
    | nil => exact Or.inr rfl
    | cons b bs =>
      simp only [charListLe]
      by_cases hab : a = b
      · subst hab
        rw [if_pos rfl, if_pos rfl]
        exact ih bs
      · rcases lt_or_gt_of_ne hab with h | h
        · exact Or.inl (by rw [if_neg hab]; exact decide_eq_true h)
        · refine Or.inr ?_
          rw [if_neg (Ne.symm hab)]
          exact decide_eq_true h

lemma mem_take_insertionSort {α : Type} (r : α → α → Prop) [DecidableRel r] {l : List α}
    {n : Nat} {x : α} (h : x ∈ (l.insertionSort r).take n) : x ∈ l :=
  (List.mem_insertionSort r).mp (List.mem_of_mem_take h)

lemma rateReport_mem {κ : Type} [DecidableEq κ] {db : List StopRecord}
    {key : StopRecord → κ} {field : StopRecord → Int} {keep : Nat → Bool}
    {row : RateRow κ} (h : row ∈ rateReport db key field keep) :
    rateRowCorrect db key field row ∧ keep row.total_stops = true := by
  unfold rateReport at h
  rcases List.mem_map.mp h with ⟨g, hg, rfl⟩
  rcases List.mem_filter.mp hg with ⟨hgmem, hkeep⟩
  unfold groupBy at hgmem
  rcases List.mem_map.mp hgmem with ⟨k, hk, rfl⟩
  refine ⟨⟨rfl, rfl, ?_⟩, hkeep⟩
  dsimp only
  rw [mul_comm]

lemma violationStats_mem {db : List StopRecord} {keep : Nat → Bool}
    {row : RateRow2} (h : row ∈ violationStats db keep) :
    rateRow2Correct db row ∧ keep row.total_stops = true := by
  unfold violationStats at h
  rcases List.mem_map.mp h with ⟨g, hg, rfl⟩
  rcases List.mem_filter.mp hg with ⟨hgmem, hkeep⟩
  unfold groupBy at hgmem
  rcases List.mem_map.mp hgmem with ⟨k, hk, rfl⟩
  refine ⟨⟨rfl, rfl, rfl, ?_, ?_⟩, hkeep⟩ <;> (dsimp only; rw [mul_comm])

lemma applyCountryFilter_noop (q f : String)
    (hc : containsSub "country_name".data q.data = false) :
    applyCountryFilter q f = (q, []) := by
  unfold applyCountryFilter
  rw [hc]
  simp

lemma applyCountryFilter_groupBy (q f : String) (hf : f.data ≠ [])
    (hc : containsSub "country_name".data q.data = true)
    (hw : containsSub "WHERE".data (q.data.map Char.toUpper) = false) :
    applyCountryFilter q f =
      (⟨replaceFirst "GROUP BY".data "WHERE country_name = ? GROUP BY".data q.data⟩, [f]) := by
  have hfe : f.data.isEmpty = false := by
    cases hF : f.data with
    | nil => exact absurd hF hf
    | cons a l => rfl
  unfold applyCountryFilter
  rw [hc, hfe, hw]
  simp

lemma c1_country_case (q f : String) (hf : f.data ≠ [])
    (hc : containsSub "country_name".data q.data = true)
    (hw : containsSub "WHERE".data (q.data.map Char.toUpper) = false)
    (hsplit : q.data = preAt "GROUP BY".data q.data ++ "GROUP BY".data ++
      postAt "GROUP BY".data q.data)
    (hpre : containsSub "GROUP BY".data (preAt "GROUP BY".data q.data) = false)
    (hrepl : replaceFirst "GROUP BY".data "WHERE country_name = ? GROUP BY".data q.data =
      preAt "GROUP BY".data q.data ++ "WHERE country_name = ? ".data ++ "GROUP BY".data ++
        postAt "GROUP BY".data q.data) :
    ∃ pre post : List Char,
      q.data = pre ++ "GROUP BY".data ++ post ∧
      containsSub "GROUP BY".data pre = false ∧
      containsSub "WHERE".data (q.data.map Char.toUpper) = false ∧
      (applyCountryFilter q f).1.data =
        pre ++ "WHERE country_name = ? ".data ++ "GROUP BY".data ++ post ∧
      (applyCountryFilter q f).2 = [f] := by
  refine ⟨preAt "GROUP BY".data q.data, postAt "GROUP BY".data q.data,
    hsplit, hpre, hw, ?_, ?_⟩ <;> rw [applyCountryFilter_groupBy q f hf hc hw]
  exact hrepl

/-- Claim C1: for every report definition in the fixed catalog and every
non-empty country-filter string, if the definition text does not contain
`country_name` the executed query text and parameter list are exactly the
unmodified ones (so the result set is that of the unfiltered report);
otherwise exactly one equality predicate on country_name is inserted
immediately before the (first) grouping clause — no definition of this
catalog that mentions country_name contains a `WHERE`, so the
conjoin-to-existing-filter branch never fires — and the supplied value is
passed as the single bound parameter, never spliced into the SQL text
(the rewritten text is built from the original text and a fixed template
only). -/
theorem country_filter_rewrite_correct :
    ∀ p ∈ SQL_QUERIES, ∀ f : String, f.data ≠ [] →
      if containsSub "country_name".data p.2.data then
        ∃ pre post : List Char,
          p.2.data = pre ++ "GROUP BY".data ++ post ∧
          containsSub "GROUP BY".data pre = false ∧
          containsSub "WHERE".data (p.2.data.map Char.toUpper) = false ∧
          (applyCountryFilter p.2 f).1.data =
            pre ++ "WHERE country_name = ? ".data ++ "GROUP BY".data ++ post ∧
          (applyCountryFilter p.2 f).2 = [f]
      else applyCountryFilter p.2 f = (p.2, []) := by
  intro p hp f hf
  fin_cases hp <;>
    first
      | (rw [if_neg (by decide)]; exact applyCountryFilter_noop _ f (by decide))
      | (rw [if_pos (by decide)];
         exact c1_country_case _ f hf (by decide) (by decide) (by decide) (by decide) (by decide))

/-- Witness for C1: the rewrite applied to the catalog entry
"Gender distribution by country" with the filter "India". -/
theorem country_filter_rewrite_witness :
    if containsSub "country_name".data (SQL_QUERIES.getD 3 ("", "")).2.data then
      ∃ pre post : List Char,
        (SQL_QUERIES.getD 3 ("", "")).2.data = pre ++ "GROUP BY".data ++ post ∧
        containsSub "GROUP BY".data pre = false ∧
        containsSub "WHERE".data ((SQL_QUERIES.getD 3 ("", "")).2.data.map Char.toUpper) = false ∧
        (applyCountryFilter (SQL_QUERIES.getD 3 ("", "")).2 "India").1.data =
          pre ++ "WHERE country_name = ? ".data ++ "GROUP BY".data ++ post ∧
        (applyCountryFilter (SQL_QUERIES.getD 3 ("", "")).2 "India").2 = ["India"]
    else applyCountryFilter (SQL_QUERIES.getD 3 ("", "")).2 "India" =
      ((SQL_QUERIES.getD 3 ("", "")).2, []) :=
  country_filter_rewrite_correct (SQL_QUERIES.getD 3 ("", "")) (by decide) "India" (by decide)

/-- Claim C2: for every rate-style report of the catalog (the seven entries
with a HAVING size threshold) and every store contents, each result row's
percentage equals 100 · (rows of the group with the boolean field 1) /
(rows of the group), its counts are the true group counts, and every row
passes that report's threshold (≥ 20, > 50, ≥ 10, ≥ 30, > 10, > 50, > 30
respectively — so any group below the 10/20/30/50 threshold is absent). -/
theorem rate_reports_correct :
    ∀ db : List StopRecord,
      (∀ row ∈ raceGenderSearchRate db,
        rateRowCorrect db (fun r => (r.driver_race, r.driver_gender)) (·.search_conducted) row ∧
        20 ≤ row.total_stops) ∧
      (∀ row ∈ countriesDrugRate db,
        rateRowCorrect db (·.country_name) (·.drugs_related_stop) row ∧ 50 < row.total_stops) ∧
      (∀ row ∈ arrestRateCountryViolation db,
        rateRowCorrect db (fun r => (r.country_name, r.violation)) (·.is_arrested) row ∧
        10 ≤ row.total_stops) ∧
      (∀ row ∈ top5ViolationsArrestRate db,
        rateRowCorrect db (·.violation) (·.is_arrested) row ∧ 30 ≤ row.total_stops) ∧
      (∀ row ∈ violationsSearchArrest db, rateRow2Correct db row ∧ 10 < row.total_stops) ∧
      (∀ row ∈ violationsRareSearchArrest db, rateRow2Correct db row ∧ 50 < row.total_stops) ∧
      (∀ row ∈ violationsRanked db,
        rateRow2Correct db row.stats ∧ 30 < row.stats.total_stops) := by
  intro db
  refine ⟨?_, ?_, ?_, ?_, ?_, ?_, ?_⟩
  · intro row h
    have h2 := rateReport_mem (mem_take_insertionSort _ h)
    exact ⟨h2.1, of_decide_eq_true h2.2⟩
  · intro row h
    have h2 := rateReport_mem (mem_take_insertionSort _ h)
    exact ⟨h2.1, of_decide_eq_true h2.2⟩
  · intro row h
    have h2 := rateReport_mem (mem_take_insertionSort _ h)
    exact ⟨h2.1, of_decide_eq_true h2.2⟩
  · intro row h
    have h2 := rateReport_mem (mem_take_insertionSort _ h)
    exact ⟨h2.1, of_decide_eq_true h2.2⟩
  · intro row h
    have h2 := violationStats_mem ((List.mem_insertionSort _).mp h)
    exact ⟨h2.1, of_decide_eq_true h2.2⟩
  · intro row h
    have h2 := violationStats_mem (mem_take_insertionSort _ h)
    exact ⟨h2.1, of_decide_eq_true h2.2⟩
  · intro row h
    have h3 := mem_take_insertionSort _ h
    rcases List.mem_map.mp h3 with ⟨s, hs, rfl⟩
    have h2 := violationStats_mem hs
    exact ⟨h2.1, of_decide_eq_true h2.2⟩

/-- Witness for C2: the spec scenario — 60 India records, 5 drug-related —
survives the > 50 threshold with drug_rate_pct = 25/3 ≈ 8.33. -/
theorem rate_reports_correct_witness :
    ({ key := "India", total_stops := 60, true_count := 5, rate_pct := 25/3 } : RateRow String) ∈
        countriesDrugRate witnessDrugDb ∧
    rateRowCorrect witnessDrugDb (·.country_name) (·.drugs_related_stop)
      { key := "India", total_stops := 60, true_count := 5, rate_pct := 25/3 } ∧
    50 < (60 : Nat) := by
  have hlist : countriesDrugRate witnessDrugDb =
      [{ key := "India", total_stops := 60, true_count := 5, rate_pct := 25/3 }] := by decide
  have hmem : ({ key := "India", total_stops := 60, true_count := 5, rate_pct := 25/3 } :
      RateRow String) ∈ countriesDrugRate witnessDrugDb := by
    rw [hlist]
    exact List.mem_singleton.mpr rfl
  have h := (rate_reports_correct witnessDrugDb).2.1
    { key := "India", total_stops := 60, true_count := 5, rate_pct := 25/3 } hmem
  exact ⟨hmem, h.1, h.2⟩

/-- Claim C3: for every accepted ingestion, the advisory is computed from
the count of records already in the store whose vehicle_number equals the
normalized input vehicle number and whose is_arrested is 1 — zero reported
as no prior arrests, any positive count as an alert with the literal count;
on an empty store the count is zero and the advisory is always noPrior; and
the two-step scenario (insert an arrest record for RJ01AB1234, then ingest
the same vehicle again) reports an alert with count 1. -/
theorem prior_arrest_advisory_correct :
    (∀ (db : List StopRecord) (inp : RawInput) (out : IngestOk),
      ingest db inp = .ok out →
        out.advisory =
          (if 0 < priorArrestCount db (normalizeVehicle inp.vehicle_number) then
            Advisory.alert (priorArrestCount db (normalizeVehicle inp.vehicle_number))
          else Advisory.noPrior) ∧
        priorArrestCount db (normalizeVehicle inp.vehicle_number) =
          (db.filter (fun r =>
            decide (r.vehicle_number = normalizeVehicle inp.vehicle_number ∧
              r.is_arrested = 1))).length) ∧
    (∀ v : String, priorArrestCount [] v = 0) ∧
    (∀ (inp : RawInput) (out : IngestOk), ingest [] inp = .ok out →
      out.advisory = .noPrior) ∧
    ingest [] sampleInput1 = .ok sampleOut1 ∧
    ingest sampleOut1.newDb sampleInput2 = .ok sampleOut2 ∧
    sampleOut2.advisory = .alert 1 := by
  refine ⟨?_, fun v => rfl, ?_, rfl, rfl, rfl⟩
  · intro db inp out h
    exact ⟨(ingest_ok_shape h).2, rfl⟩
  · intro inp out h
    rw [(ingest_ok_shape h).2]
    rfl

/-- Witness for C3: the advisory equations instantiated at the empty store
and the scenario's first input. -/
theorem prior_arrest_advisory_witness :
    sampleOut1.advisory =
      (if 0 < priorArrestCount [] (normalizeVehicle sampleInput1.vehicle_number) then
        Advisory.alert (priorArrestCount [] (normalizeVehicle sampleInput1.vehicle_number))
      else Advisory.noPrior) ∧
    priorArrestCount [] (normalizeVehicle sampleInput1.vehicle_number) =
      (([] : List StopRecord).filter (fun r =>
        decide (r.vehicle_number = normalizeVehicle sampleInput1.vehicle_number ∧
          r.is_arrested = 1))).length :=
  prior_arrest_advisory_correct.1 [] sampleInput1 sampleOut1 rfl

/-- Claim C4: an accepted ingestion with search_conducted = 0 persists
search_type "No Search" regardless of the caller-supplied value, and every
record of a store built only through the ingestion path satisfies
search_conducted = 0 → search_type = "No Search". -/
theorem search_type_forced :
    (∀ (db : List StopRecord) (inp : RawInput) (out : IngestOk),
      ingest db inp = .ok out → inp.search_conducted = 0 →
      ∃ rec, out.newDb = db ++ [rec] ∧ rec.search_conducted = 0 ∧
        rec.search_type = "No Search") ∧
    (∀ inps : List RawInput, ∀ rec ∈ ingestAll inps,
      rec.search_conducted = 0 → rec.search_type = "No Search") := by
  constructor
  · intro db inp out h h0
    refine ⟨newRecordOf inp, (ingest_ok_shape h).1, h0, ?_⟩
    show (if inp.search_conducted = 0 then "No Search" else inp.search_type) = "No Search"
    rw [if_pos h0]
  · intro inps
    exact search_type_foldl inps [] (by intro rec h; exact absurd h (List.not_mem_nil rec))

/-- Witness for C4: sampleInput1 carries search_type "Frisk" with
search_conducted = 0, and the persisted row's search_type is "No Search". -/
theorem search_type_forced_witness :
    ∃ rec, sampleOut1.newDb = [] ++ [rec] ∧ rec.search_conducted = 0 ∧
      rec.search_type = "No Search" :=
  search_type_forced.1 [] sampleInput1 sampleOut1 rfl rfl

/-- Claim C5: an ingestion input whose normalized vehicle number is empty
or shorter than 4 characters is rejected with the validation error, and
the store is unchanged (the model returns before the prior-arrest query
and the insert are ever reached). -/
theorem short_vehicle_rejected :
    ∀ (db : List StopRecord) (inp : RawInput),
      (normalizeVehicle inp.vehicle_number).data.isEmpty = true ∨
        (normalizeVehicle inp.vehicle_number).length < 4 →
      ingest db inp = .error "Provide a valid vehicle number." ∧ ingestStep db inp = db := by
  intro db inp h
  have he := ingest_rejected db h
  exact ⟨he, by unfold ingestStep; rw [he]⟩

/-- Witness for C5: the input " ab " normalizes to "AB" and is rejected. -/
theorem short_vehicle_rejected_witness :
    ingest [] sampleShortInput = .error "Provide a valid vehicle number." ∧
    ingestStep [] sampleShortInput = [] :=
  short_vehicle_rejected [] sampleShortInput (Or.inr (by decide))

/-- Claim C6: the age-bucket derivation is total and exhaustive — a null
driver_age maps to "Unknown", every integer age maps to a band of the six,
the band's interval contains the age, and no other band's interval does
(the bands cover ℤ and do not overlap). -/
theorem age_bucket_total_exhaustive :
    age_group none = "Unknown" ∧
    ∀ a : Int,
      age_group (some a) ∈ sixAgeBands ∧
      inAgeBand (age_group (some a)) a = true ∧
      ∀ band ∈ sixAgeBands, inAgeBand band a = true → band = age_group (some a) := by
  refine ⟨rfl, fun a => ?_⟩
  have hma : age_group (some a) ∈ sixAgeBands ∧ inAgeBand (age_group (some a)) a = true := by
    simp only [age_group]
    split_ifs with h1 h2 h3 h4 h5 h6
    · exact ⟨by decide, by rw [inAgeBand_lt18]; exact decide_eq_true h1⟩
    · exact ⟨by decide, by rw [inAgeBand_18_24]; exact decide_eq_true h2⟩
    · exact ⟨by decide, by rw [inAgeBand_25_34]; exact decide_eq_true h3⟩
    · exact ⟨by decide, by rw [inAgeBand_35_44]; exact decide_eq_true h4⟩
    · exact ⟨by decide, by rw [inAgeBand_45_54]; exact decide_eq_true h5⟩
    · exact ⟨by decide, by rw [inAgeBand_55]; exact decide_eq_true h6⟩
    · exfalso; omega
  exact ⟨hma.1, hma.2, fun band hb hband => bands_disjoint a band hb _ hma.1 hband hma.2⟩

/-- Witness for C6: age 30 lands in exactly the band "25-34". -/
theorem age_bucket_witness :
    age_group (some 30) ∈ sixAgeBands ∧ inAgeBand (age_group (some 30)) 30 = true ∧
    "25-34" = age_group (some 30) := by
  have h := age_bucket_total_exhaustive.2 30
  exact ⟨h.1, h.2.1, h.2.2 "25-34" (by decide) (by decide)⟩

/-- Claim C7 counterexample: the claim says every store operation releases
its connection on every exit path, including the raising path, but
`init_db` (src/app.py lines 25-48) has no try/finally: on the path where
the database execution raises, its trace opens a connection and never
closes it. -/
theorem init_db_leak_counterexample : ¬ releasesConnection (init_db true).1 := by
  decide

/-- Claim C7 (amended): `run_query`, `insert_log` and `get_table_info`
release their connection on the success path and on the raising path
alike (their bodies run under try/finally); `init_db` releases its
connection only on the success path and leaks it when the database
execution raises. -/
theorem connection_release_paths :
    releasesConnection (run_query false).1 ∧ releasesConnection (run_query true).1 ∧
    releasesConnection (insert_log false).1 ∧ releasesConnection (insert_log true).1 ∧
    releasesConnection (get_table_info false).1 ∧ releasesConnection (get_table_info true).1 ∧
    releasesConnection (init_db false).1 ∧ ¬ releasesConnection (init_db true).1 := by
  decide

/-- Claim C8: the drug-related percentage KPI evaluates the guarded branch
(with its NULL-intolerant int conversions and the division) only when
total_stops > 0: on an empty store it is 0, on a non-empty store it is
drug count / total · 100, and it never raises. -/
theorem drug_rate_guarded :
    drug_rate (load_kpis []) = .ok 0 ∧
    (∀ db : List StopRecord, db.length = 0 → drug_rate (load_kpis db) = .ok 0) ∧
    (∀ db : List StopRecord, 0 < db.length →
      drug_rate (load_kpis db) =
        .ok (((db.filter (fun r => decide (r.drugs_related_stop = 1))).length : ℚ) /
          (db.length : ℚ) * 100)) ∧
    (∀ db : List StopRecord, ∃ q : ℚ, drug_rate (load_kpis db) = .ok q) := by
  have h2 : ∀ db : List StopRecord, db.length = 0 → drug_rate (load_kpis db) = .ok 0 := by
    intro db h
    rw [List.length_eq_zero.mp h]
    rfl
  have h3 : ∀ db : List StopRecord, 0 < db.length →
      drug_rate (load_kpis db) =
        .ok (((db.filter (fun r => decide (r.drugs_related_stop = 1))).length : ℚ) /
          (db.length : ℚ) * 100) := by
    intro db h
    have hne : db.isEmpty = false := by
      cases db with
      | nil => simp at h
      | cons a l => rfl
    simp [drug_rate, load_kpis, intOfSql, hne, h]
  refine ⟨h2 [] rfl, h2, h3, ?_⟩
  intro db
  by_cases h : 0 < db.length
  · exact ⟨_, h3 db h⟩
  · exact ⟨0, h2 db (by omega)⟩

/-- Witness for C8: the KPI on a one-record store without drug stops. -/
theorem drug_rate_guarded_witness :
    drug_rate (load_kpis [sampleRecord1]) =
      .ok (((([sampleRecord1] : List StopRecord).filter
          (fun r => decide (r.drugs_related_stop = 1))).length : ℚ) /
        (([sampleRecord1] : List StopRecord).length : ℚ) * 100) :=
  drug_rate_guarded.2.2.1 [sampleRecord1] (by decide)

/-- Claim C9: the vehicle-history lookup returns only records whose
vehicle_number equals the normalized lookup string, sorted by
stop_datetime descending, with at most 200 rows — exactly
min(200, matches) of them — and when at most 200 records match it returns
exactly the matching records (a permutation of them).  The final conjunct
pins down which rows are dropped past 200: the result together with some
omitted list is a permutation of all matches, and every omitted record's
stop_datetime is no more recent than that of every returned record — the
returned rows are the 200 most recent matches (up to equal timestamps),
and only records beyond those are silently omitted. -/
theorem vehicle_history_correct :
    ∀ (db : List StopRecord) (raw : String),
      (∀ rec ∈ vehicleHistory db raw, rec.vehicle_number = normalizeVehicle raw) ∧
      List.Pairwise datetimeDesc (vehicleHistory db raw) ∧
      (vehicleHistory db raw).length ≤ 200 ∧
      (vehicleHistory db raw).length =
        min 200 (db.filter (fun r => decide (r.vehicle_number = normalizeVehicle raw))).length ∧
      ((db.filter (fun r => decide (r.vehicle_number = normalizeVehicle raw))).length ≤ 200 →
        (vehicleHistory db raw).Perm
          (db.filter (fun r => decide (r.vehicle_number = normalizeVehicle raw)))) ∧
      (∃ omitted : List StopRecord,
        (vehicleHistory db raw ++ omitted).Perm
          (db.filter (fun r => decide (r.vehicle_number = normalizeVehicle raw))) ∧
        ∀ x ∈ vehicleHistory db raw, ∀ y ∈ omitted, datetimeDesc x y) := by
  haveI : IsTrans StopRecord datetimeDesc :=
    ⟨fun _ _ _ hab hbc => charListLe_trans _ _ _ hbc hab⟩
  haveI : IsTotal StopRecord datetimeDesc :=
    ⟨fun a b => (charListLe_total b.stop_datetime.data a.stop_datetime.data).imp id id⟩
  intro db raw
  refine ⟨?_, ?_, ?_, ?_, ?_, ?_⟩
  · intro rec hrec
    have h1 : rec ∈ (db.filter
        (fun r => decide (r.vehicle_number = normalizeVehicle raw))).insertionSort datetimeDesc :=
      List.mem_of_mem_take hrec
    have h2 := (List.mem_insertionSort datetimeDesc).mp h1
    exact of_decide_eq_true (List.mem_filter.mp h2).2
  · exact List.Pairwise.sublist (List.take_sublist _ _)
      (List.sorted_insertionSort datetimeDesc _)
  · exact List.length_take_le _ _
  · rw [vehicleHistory, List.length_take, List.length_insertionSort]
  · intro hle
    rw [vehicleHistory, List.take_of_length_le (by rw [List.length_insertionSort]; exact hle)]
    exact List.perm_insertionSort datetimeDesc _
  · refine ⟨((db.filter
        (fun r => decide (r.vehicle_number = normalizeVehicle raw))).insertionSort
          datetimeDesc).drop 200, ?_, ?_⟩
    · show (((db.filter (fun r => decide (r.vehicle_number = normalizeVehicle raw))).insertionSort
          datetimeDesc).take 200 ++
        ((db.filter (fun r => decide (r.vehicle_number = normalizeVehicle raw))).insertionSort
          datetimeDesc).drop 200).Perm _
      rw [List.take_append_drop]
      exact List.perm_insertionSort datetimeDesc _
    · have hs := List.sorted_insertionSort datetimeDesc
        (db.filter (fun r => decide (r.vehicle_number = normalizeVehicle raw)))
      rw [← List.take_append_drop 200
        ((db.filter (fun r => decide (r.vehicle_number = normalizeVehicle raw))).insertionSort
          datetimeDesc)] at hs
      exact (List.pairwise_append.mp hs).2.2

/-- Witness for C9: a one-record store queried with a lookup string that
normalizes to the record's vehicle number, exercising both the
exactly-the-matches conjunct and the nothing-recent-omitted conjunct. -/
theorem vehicle_history_witness :
    (vehicleHistory [sampleRecord1] " rj01ab1234 ").Perm
      (([sampleRecord1] : List StopRecord).filter
        (fun r => decide (r.vehicle_number = normalizeVehicle " rj01ab1234 "))) ∧
    (∃ omitted : List StopRecord,
      (vehicleHistory [sampleRecord1] " rj01ab1234 " ++ omitted).Perm
        (([sampleRecord1] : List StopRecord).filter
          (fun r => decide (r.vehicle_number = normalizeVehicle " rj01ab1234 "))) ∧
      ∀ x ∈ vehicleHistory [sampleRecord1] " rj01ab1234 ", ∀ y ∈ omitted, datetimeDesc x y) := by
  have h := vehicle_history_correct [sampleRecord1] " rj01ab1234 "
  exact ⟨h.2.2.2.2.1 (by decide), h.2.2.2.2.2⟩

/-- Claim C10: every accepted ingestion persists stop_datetime as the text
produced by the fixed format, and for the valid component ranges the date
pickers supply (with four-digit years), the strftime-based hour, month and
year derivations of the report catalog recover exactly the entered
components. -/
theorem stop_datetime_format_correct :
    ∀ (db : List StopRecord) (inp : RawInput) (out : IngestOk),
      ingest db inp = .ok out →
      ∃ rec, out.newDb = db ++ [rec] ∧
        rec.stop_datetime = formatStopDatetime inp.stop_date_time ∧
        (inp.stop_date_time.year ≤ 9999 → inp.stop_date_time.month ≤ 99 →
         inp.stop_date_time.day ≤ 99 → inp.stop_date_time.hour ≤ 99 →
         inp.stop_date_time.minute ≤ 99 → inp.stop_date_time.second ≤ 99 →
          strftimeYear rec.stop_datetime = some inp.stop_date_time.year ∧
          strftimeMonth rec.stop_datetime = some inp.stop_date_time.month ∧
          strftimeHour rec.stop_datetime = some inp.stop_date_time.hour) := by
  intro db inp out h
  refine ⟨newRecordOf inp, (ingest_ok_shape h).1, rfl, ?_⟩
  intro h1 h2 h3 h4 h5 h6
  have hp := parseStopDatetime_format inp.stop_date_time h1 h2 h3 h4 h5 h6
  unfold strftimeYear strftimeMonth strftimeHour
  rw [show (newRecordOf inp).stop_datetime = formatStopDatetime inp.stop_date_time from rfl, hp]
  exact ⟨rfl, rfl, rfl⟩

/-- Witness for C10: the scenario input (2024-01-01 10:00:00) round-trips
through the persisted text. -/
theorem stop_datetime_format_witness :
    ∃ rec : StopRecord, sampleOut1.newDb = [] ++ [rec] ∧
      rec.stop_datetime = formatStopDatetime sampleInput1.stop_date_time ∧
      strftimeYear rec.stop_datetime = some 2024 ∧
      strftimeMonth rec.stop_datetime = some 1 ∧
      strftimeHour rec.stop_datetime = some 10 := by
  obtain ⟨rec, ha, hb, hc⟩ :=
    stop_datetime_format_correct [] sampleInput1 sampleOut1 rfl
  obtain ⟨h1, h2, h3⟩ := hc (by decide) (by decide) (by decide) (by decide) (by decide) (by decide)
  exact ⟨rec, ha, hb, h1, h2, h3⟩
